import Mathlib

/-!
Verification of the scrim-stats match-ingestion core: a shallow embedding of
the service layer (`services/match_services.py`, `services/award_services.py`,
`services/player_services.py`), the model layer (`api/models.py`), and the
stat serializer (`api/serializers.py`) of the mlwebapp repository, together
with theorems settling the specification claims about it.

Conventions of the embedding:
- database primary keys are `Nat`; Django's `order_by(...).first()` is modelled
  by `orderByDescFirst` / `orderByAscFirst`, which keep the earliest row among
  key ties (a deterministic stand-in for the engine's arbitrary tie order);
- timestamps (`match_date`) are minutes since an epoch, as `Int`; the calendar
  date used by `strftime('%Y-%m-%d')` and `DateField` values is the floor
  division by 1440 (minutes per day);
- Python truthiness of optional ids and strings (`if not match.winning_team_id`,
  `if ign:`) is modelled by `natTruthy` / `strTruthy` (0 and "" are falsy);
- floats (`FloatField`, `float(...)` and KDA division) are modelled by `Rat`;
- JSON snapshots stored in `MatchEditHistory.previous_values` / `new_values`
  always hold the fixed key sets written by `update_match` /
  `update_player_stats`, so they are embedded as the structures
  `MatchSnapshot` / `StatSnapshot`.
-/

/-- Python truthiness for an optional integer primary key: `None` and `0` are falsy. -/

def natTruthy : Option Nat → Option Nat
  | some n => if n = 0 then none else some n
  | none => none

/-- Python truthiness for an optional string: `None` and `""` are falsy. -/

def strTruthy : Option String → Option String
  | some s => if s = "" then none else some s
  | none => none

/-- Django `qs.order_by('-key').first()`: an element maximising `key`,
keeping the earliest listed row among ties. -/

def orderByDescFirst {α : Type} (key : α → Rat) : List α → Option α
  | [] => none
  | a :: rest =>
    match orderByDescFirst key rest with
    | none => some a
    | some b => if key a < key b then some b else some a

/-- Django `qs.order_by('key').first()`: an element minimising `key`,
keeping the earliest listed row among ties. -/

def orderByAscFirst {α : Type} (key : α → Rat) : List α → Option α
  | [] => none
  | a :: rest =>
    match orderByAscFirst key rest with
    | none => some a
    | some b => if key b < key a then some b else some a

/-- `api.models.Team` (the fields the verified code reads). -/

structure Team where
  team_id : Nat
  team_name : String
  team_abbreviation : String
deriving DecidableEq

/-- The `score_details` JSON blob written by
`MatchStatsService.calculate_score_details`. -/

structure ScoreDetails where
  blue_side_score : Int
  red_side_score : Int
  blue_side_team_name : String
  red_side_team_name : String
  score_by : String
deriving DecidableEq

/-- `api.models.Match` in the unified side-tagged schema used by the service
layer and `MatchSerializer` (`blue_side_team` / `red_side_team`, nullable
`our_team` context), restricted to the fields the verified code reads. -/

structure Match where
  pk : Nat
  scrim_group_id : Option Nat
  match_date : Int
  blue_side_team_id : Option Nat
  red_side_team_id : Option Nat
  our_team_id : Option Nat
  winning_team_id : Option Nat
  scrim_type : String
  match_outcome : Option String
  general_notes : Option String
  match_duration : Option Int
  game_number : Int
  score_details : Option ScoreDetails
deriving DecidableEq

/-- `api.models.PlayerMatchStat` (the fields the verified code reads). -/

structure PlayerMatchStat where
  stats_id : Nat
  match_id : Nat
  player_id : Nat
  team_id : Nat
  role_played : Option String
  hero_played_id : Option Nat
  kills : Int
  deaths : Int
  assists : Int
  computed_kda : Rat
  damage_dealt : Option Int
  damage_taken : Option Int
  turret_damage : Option Int
  teamfight_participation : Option Rat
  gold_earned : Option Int
  player_notes : Option String
  medal : Option String
deriving DecidableEq

/-- `api.models.ScrimGroup` (a session of matches). -/

structure ScrimGroup where
  scrim_group_id : Nat
  scrim_group_name : String
  start_date : Int
  notes : Option String
deriving DecidableEq

/-- The fixed key set `MatchStatsService.update_match` snapshots into
`MatchEditHistory.previous_values` and `restore_match_version` writes back. -/

structure MatchSnapshot where
  match_date : Int
  scrim_type : String
  blue_side_team_id : Option Nat
  red_side_team_id : Option Nat
  winning_team_id : Option Nat
  general_notes : Option String
  match_duration : Option Int
  game_number : Int
deriving DecidableEq

/-- The fixed key set `MatchStatsService.update_player_stats` snapshots into
`MatchEditHistory.previous_values` and `restore_match_version` writes back. -/

structure StatSnapshot where
  kills : Int
  deaths : Int
  assists : Int
  damage_dealt : Option Int
  damage_taken : Option Int
  turret_damage : Option Int
  teamfight_participation : Option Rat
  gold_earned : Option Int
  player_notes : Option String
  role_played : Option String
  hero_played_id : Option Nat
  medal : Option String
deriving DecidableEq

/-- A JSON payload of a `MatchEditHistory` row: either a match-metadata
snapshot or a player-stat snapshot, discriminated by the row's edit type. -/

inductive SnapshotVal where
  | matchSnap (s : MatchSnapshot)
  | statSnap (s : StatSnapshot)
deriving DecidableEq

/-- `api.models.MatchEditHistory` (the fields the verified code reads). -/

structure MatchEditHistory where
  history_id : Nat
  match_id : Nat
  edited_by : String
  previous_values : SnapshotVal
  new_values : SnapshotVal
  edit_type : String
  edit_reason : String
  related_player_stat_id : Option Nat
deriving DecidableEq

/-- The relational store the service layer reads and writes. -/

structure Db where
  teams : List Team
  matchRows : List Match
  stats : List PlayerMatchStat
  groups : List ScrimGroup
  history : List MatchEditHistory
  nextGroupId : Nat
  nextHistoryId : Nat
deriving DecidableEq

/-- `Match.objects.get(pk=...)` as a partial lookup. -/

def Db.findMatch (db : Db) (pk : Nat) : Option Match :=
  db.matchRows.find? (fun x => x.pk = pk)

/-- Write back one match row (Django `save` / `filter(pk).update`). -/

def Db.updateMatch (db : Db) (m : Match) : Db :=
  { db with matchRows := db.matchRows.map (fun x => if x.pk = m.pk then m else x) }

/-- `PlayerMatchStat.objects.get(pk=...)` as a partial lookup. -/

def Db.findStat (db : Db) (sid : Nat) : Option PlayerMatchStat :=
  db.stats.find? (fun s => s.stats_id = sid)

/-- Write back one player-stat row. -/

def Db.updateStat (db : Db) (s : PlayerMatchStat) : Db :=
  { db with stats := db.stats.map (fun x => if x.stats_id = s.stats_id then s else x) }

/-- `match.player_stats.all()`: the stat rows of one match. -/

def Db.statsOfMatch (db : Db) (pk : Nat) : List PlayerMatchStat :=
  db.stats.filter (fun s => s.match_id = pk)

/-- Follow a team foreign key and read its display name. -/

def Db.teamName (db : Db) (tid : Nat) : String :=
  match db.teams.find? (fun t => t.team_id = tid) with
  | some t => t.team_name
  | none => ""

/-- `Match.objects.filter(pk=...).update(score_details=...)`: store a computed
score-details record on one match row. -/

def Db.saveScoreDetails (db : Db) (pk : Nat) (sd : ScoreDetails) : Db :=
  { db with
      matchRows := db.matchRows.map (fun x =>
        if x.pk = pk then { x with score_details := some sd } else x) }

/-- The calendar day of a timestamp in minutes since an epoch: the value
`strftime('%Y-%m-%d')` and `DateField` coercion expose. -/

def calendarDay (t : Int) : Int := Int.fdiv t 1440

namespace MatchStatsService

/-- `MatchStatsService.calculate_score_details`: sums kills per side over the
match's stat rows, builds the `score_details` record and saves it on the
match row; returns the store plus the computed record (`None` when the match
has no stat rows). -/
def calculate_score_details (db : Db) (m : Match) : Db × Option ScoreDetails :=
  let stats := db.statsOfMatch m.pk
  if stats = [] then (db, none)
  else
    let blue_side_kills :=
      ((stats.filter (fun s => m.blue_side_team_id = some s.team_id)).map
        (fun s => s.kills)).sum
    let red_side_kills :=
      ((stats.filter (fun s => m.red_side_team_id = some s.team_id)).map
        (fun s => s.kills)).sum
    let score_details : ScoreDetails :=
      { blue_side_score := blue_side_kills
        red_side_score := red_side_kills
        blue_side_team_name :=
          match m.blue_side_team_id with
          | some t => db.teamName t
          | none => "Blue Team"
        red_side_team_name :=
          match m.red_side_team_id with
          | some t => db.teamName t
          | none => "Red Team"
        score_by := "kills" }
    (db.saveScoreDetails m.pk score_details, some score_details)

/-- `MatchStatsService.determine_outcome`: outcome from the winning team,
relative to the `our_team` context when present, defaulting to the blue-side
perspective otherwise. -/
def determine_outcome (m : Match) : Option String :=
  match natTruthy m.winning_team_id with
  | none => none
  | some w =>
    match natTruthy m.our_team_id with
    | some o => if w = o then some "VICTORY" else some "DEFEAT"
    | none =>
      if m.blue_side_team_id = some w then some "VICTORY" else some "DEFEAT"

/-- The deterministic group name of `assign_scrim_group_for_match`: the two
team names, the calendar date and the match type. -/
def group_name_for (db : Db) (m : Match) : String :=
  (match m.blue_side_team_id with
   | some t => db.teamName t
   | none => "") ++
  " vs " ++
  (match m.red_side_team_id with
   | some t => db.teamName t
   | none => "") ++
  " - " ++ toString (calendarDay m.match_date) ++ " - " ++ m.scrim_type

/-- `ScrimGroup.objects.get_or_create(scrim_group_name=..., start_date=...,
defaults={'notes': ...})`: reuse the group with this name and start date when
one exists, create it otherwise. -/
def get_or_create_group (db : Db) (name : String) (start_date : Int)
    (notes : String) : Db × Nat :=
  match db.groups.find? (fun g =>
      g.scrim_group_name = name ∧ g.start_date = start_date) with
  | some g => (db, g.scrim_group_id)
  | none =>
    ({ db with
        groups := db.groups ++
          [{ scrim_group_id := db.nextGroupId
             scrim_group_name := name
             start_date := start_date
             notes := some notes }]
        nextGroupId := db.nextGroupId + 1 },
     db.nextGroupId)

/-- The previous-match query of `assign_scrim_group_for_match`: same blue-side
team, same red-side team, same match type, timestamp strictly before the new
match's and no more than six hours (360 minutes) earlier. -/
def previous_match_query (db : Db) (m : Match) : List Match :=
  db.matchRows.filter (fun x =>
    x.blue_side_team_id = m.blue_side_team_id ∧
    x.red_side_team_id = m.red_side_team_id ∧
    x.scrim_type = m.scrim_type ∧
    x.match_date < m.match_date ∧
    m.match_date - 360 ≤ x.match_date)

/-- The group-selection branch of `assign_scrim_group_for_match`: reuse the
most recent windowed match's session when it has one, else get-or-create a
group under the deterministic name and the match's date. -/
def scrim_group_for (db : Db) (m : Match) : Db × Nat :=
  let notes := "Auto-created group for " ++ m.scrim_type ++
    " matches starting around " ++ toString m.match_date
  match orderByDescFirst (fun x => (x.match_date : Rat))
      (previous_match_query db m) with
  | some p =>
    match p.scrim_group_id with
    | some g => (db, g)
    | none =>
      get_or_create_group db (group_name_for db m) (calendarDay m.match_date) notes
  | none =>
    get_or_create_group db (group_name_for db m) (calendarDay m.match_date) notes

/-- `MatchStatsService.assign_scrim_group_for_match`: skip when a side team or
the match type is missing; otherwise fix the session from the six-hour
window, save it on the match row, then recompute the game number as one plus
the count of other matches already in the session. -/
def assign_scrim_group_for_match (db : Db) (pk : Nat) : Db :=
  match db.findMatch pk with
  | none => db
  | some m =>
    if m.blue_side_team_id = none ∨ m.red_side_team_id = none ∨
        m.scrim_type = "" then db
    else
      match scrim_group_for db m with
      | (db1, gid) =>
        let db2 := db1.updateMatch { m with scrim_group_id := some gid }
        let cnt := (db2.matchRows.filter (fun x =>
          x.scrim_group_id = some gid ∧ x.pk ≠ m.pk)).length
        db2.updateMatch
          { m with scrim_group_id := some gid, game_number := (cnt : Int) + 1 }

end MatchStatsService

/-- The writable stat fields `PlayerMatchStatSerializer.validate` inspects. -/

structure StatSubmission where
  computed_kda : Option Rat
  kills : Option Int
  deaths : Option Int
  assists : Option Int
deriving DecidableEq

namespace PlayerMatchStatSerializer

/-- `PlayerMatchStatSerializer.validate`: fills in `computed_kda` from kills,
deaths and assists when the caller did not supply it. -/
def validate (data : StatSubmission) : StatSubmission :=
  match data.computed_kda with
  | some _ => data
  | none =>
    let kills := data.kills.getD 0
    let deaths := data.deaths.getD 0
    let assists := data.assists.getD 0
    { data with
        computed_kda :=
          some (if deaths = 0 then ((kills + assists : Int) : Rat)
                else ((kills + assists : Int) : Rat) / (deaths : Rat)) }

end PlayerMatchStatSerializer

/-- `api.models.Player` (the fields the verified code reads). -/

structure PlayerRow where
  player_id : Nat
  current_ign : String
  primary_role : Option String
deriving DecidableEq

/-- `api.models.PlayerAlias` (`alias_ign` embeds the `alias` column). -/

structure PlayerAliasRow where
  player_id : Nat
  alias_ign : String
deriving DecidableEq

/-- `api.models.PlayerTeamHistory` (the fields the verified code reads). -/

structure PlayerTeamHistoryRow where
  player_id : Nat
  team_id : Nat
  left_date : Option Int
deriving DecidableEq

/-- The store slice player identity resolution reads and writes. -/

structure PlayerDb where
  players : List PlayerRow
  aliases : List PlayerAliasRow
  team_history : List PlayerTeamHistoryRow
  nextPlayerId : Nat
deriving DecidableEq

namespace PlayerService

/-- The Django join `team_history__team=team, team_history__left_date=None`:
whether a player has an open membership on the given team. -/
def currently_on_team (pdb : PlayerDb) (pid team : Nat) : Bool :=
  pdb.team_history.any (fun h =>
    h.player_id = pid ∧ h.team_id = team ∧ h.left_date = none)

/-- `PlayerService.find_player_by_ign`: look for a current-IGN match (scoped
to the team's open memberships when a team is given), then fall back to an
alias match under the same scoping. -/
def find_player_by_ign (pdb : PlayerDb) (ign : String) (team : Option Nat) :
    Option PlayerRow :=
  let base : List PlayerRow :=
    match team with
    | some t => pdb.players.filter (fun p => currently_on_team pdb p.player_id t)
    | none => pdb.players
  match base.find? (fun p => p.current_ign = ign) with
  | some p => some p
  | none =>
    let al : Option PlayerAliasRow :=
      match team with
      | some t =>
        pdb.aliases.find? (fun a =>
          a.alias_ign = ign ∧ currently_on_team pdb a.player_id t)
      | none => pdb.aliases.find? (fun a => a.alias_ign = ign)
    match al with
    | some a => pdb.players.find? (fun p => p.player_id = a.player_id)
    | none => none

/-- `PlayerService.get_or_create_player_for_team`: reuse the player found by
IGN on the team, else create a player with one open membership. -/
def get_or_create_player_for_team (pdb : PlayerDb) (ign : String) (team : Nat)
    (role : Option String) : PlayerDb × PlayerRow × Bool :=
  match find_player_by_ign pdb ign (some team) with
  | some p => (pdb, p, false)
  | none =>
    let p : PlayerRow :=
      { player_id := pdb.nextPlayerId
        current_ign := ign
        primary_role := role }
    ({ pdb with
        players := pdb.players ++ [p]
        team_history := pdb.team_history ++
          [{ player_id := pdb.nextPlayerId, team_id := team, left_date := none }]
        nextPlayerId := pdb.nextPlayerId + 1 },
     p, true)

end PlayerService

/-- One raw stat dict submitted to `verify_and_process_match_players` /
`_create_stats` (every key optional, read with `.get`). -/

structure StatInputRow where
  player_id : Option Nat
  ign : Option String
  is_new_player : Bool
  role_played : Option String
  hero_played : Option Nat
  kills : Option Int
  deaths : Option Int
  assists : Option Int
  kda : Option Rat
  damage_dealt : Option Int
  damage_taken : Option Int
  turret_damage : Option Int
  teamfight_participation : Option Rat
  gold_earned : Option Int
  player_notes : Option String
  medal : Option String
deriving DecidableEq

/-- The dictionary `MatchStatsService._resolve_player` returns, with the keys
of all its branches unified (a key a branch does not set is `none`). -/

structure ResolveResult where
  action : String
  player_id : Option Nat
  ign : Option String
  team_id : Option Nat
  role_played : Option String
  needs_verification : Bool
  verification_type : Option String
  error : Option String
deriving DecidableEq

/-- The match fields `_create_stats` reads: id and the legacy non-null
`our_team` / `opponent_team` pair. -/

structure CreateMatchCtx where
  match_id : Nat
  our_team : Nat
  opponent_team : Nat
deriving DecidableEq

namespace MatchStatsService

/-- `MatchStatsService._resolve_player`: use a valid supplied id; else search
the team-scoped IGN index; else direct the caller to create a new player
(needs verification); with no id and no IGN, report an error. -/
def _resolve_player (pdb : PlayerDb) (stat_data : StatInputRow) (team_id : Nat) :
    ResolveResult :=
  let case1 : Option ResolveResult :=
    match natTruthy stat_data.player_id, stat_data.is_new_player with
    | some pid, false =>
      (pdb.players.find? (fun p => p.player_id = pid)).map (fun p =>
        { action := "use_existing"
          player_id := some p.player_id
          ign := some p.current_ign
          team_id := none
          role_played := none
          needs_verification := false
          verification_type := none
          error := none })
    | _, _ => none
  match case1 with
  | some r => r
  | none =>
    match strTruthy stat_data.ign with
    | some s =>
      match PlayerService.find_player_by_ign pdb s (some team_id) with
      | some p =>
        { action := "use_existing"
          player_id := some p.player_id
          ign := some p.current_ign
          team_id := none
          role_played := none
          needs_verification := false
          verification_type := none
          error := none }
      | none =>
        if stat_data.is_new_player then
          { action := "create_new"
            player_id := none
            ign := some s
            team_id := some team_id
            role_played := stat_data.role_played
            needs_verification := true
            verification_type := some "new_player"
            error := none }
        else
          { action := "create_new"
            player_id := none
            ign := some s
            team_id := some team_id
            role_played := stat_data.role_played
            needs_verification := true
            verification_type := some "ign_not_found"
            error := none }
    | none =>
      { action := "error"
        player_id := none
        ign := none
        team_id := none
        role_played := none
        needs_verification := true
        verification_type := some "missing_data"
        error := some "Cannot resolve player - missing ID and IGN" }

/-- The per-row player resolution inside `_create_stats`: marked-new rows go
through get-or-create; otherwise a valid supplied id wins, falling back to
the team-scoped IGN search and finally to get-or-create. -/
def resolve_for_create (pdb : PlayerDb) (team : Nat) (d : StatInputRow) :
    PlayerDb × PlayerRow :=
  if d.is_new_player then
    let res := PlayerService.get_or_create_player_for_team pdb (d.ign.getD "")
      team d.role_played
    (res.1, res.2.1)
  else
    match d.player_id.bind (fun pid =>
        pdb.players.find? (fun p => p.player_id = pid)) with
    | some p => (pdb, p)
    | none =>
      match PlayerService.find_player_by_ign pdb (d.ign.getD "") (some team) with
      | some p => (pdb, p)
      | none =>
        let res := PlayerService.get_or_create_player_for_team pdb (d.ign.getD "")
          team d.role_played
        (res.1, res.2.1)

/-- The row `PlayerMatchStat.objects.create(...)` receives inside
`_create_stats`: all fields from the submitted dict, the team from the
match relationship. -/
def stat_row_from (mid sid : Nat) (player : PlayerRow) (team : Nat)
    (d : StatInputRow) : PlayerMatchStat :=
  { stats_id := sid
    match_id := mid
    player_id := player.player_id
    team_id := team
    role_played := d.role_played
    hero_played_id := d.hero_played
    kills := d.kills.getD 0
    deaths := d.deaths.getD 0
    assists := d.assists.getD 0
    computed_kda := d.kda.getD 0
    damage_dealt := d.damage_dealt
    damage_taken := d.damage_taken
    turret_damage := d.turret_damage
    teamfight_participation := d.teamfight_participation
    gold_earned := d.gold_earned
    player_notes := d.player_notes
    medal := d.medal }

/-- One side's loop of `_create_stats`: resolve each row's player and create
its stat row with the side's team. -/
def create_stats_for_team (pdb : PlayerDb) (mid team sid0 : Nat) :
    List StatInputRow → PlayerDb × Nat × List PlayerMatchStat
  | [] => (pdb, sid0, [])
  | d :: rest =>
    let res := resolve_for_create pdb team d
    let row := stat_row_from mid sid0 res.2 team d
    let rec_res := create_stats_for_team res.1 mid team (sid0 + 1) rest
    (rec_res.1, rec_res.2.1, row :: rec_res.2.2)

/-- `MatchStatsService._create_stats`: our team's rows with `match.our_team`,
then the opponent's rows with `match.opponent_team`. -/
def _create_stats (pdb : PlayerDb) (m : CreateMatchCtx)
    (team_stats opponent_stats : List StatInputRow) (sid0 : Nat) :
    PlayerDb × Nat × List PlayerMatchStat :=
  let r1 := create_stats_for_team pdb m.match_id m.our_team sid0 team_stats
  let r2 := create_stats_for_team r1.1 m.match_id m.opponent_team r1.2.1
    opponent_stats
  (r2.1, r2.2.1, r1.2.2 ++ r2.2.2)

end MatchStatsService

/-- `PlayerMatchStat.objects.create(...)` at the ORM level: an unconditional
insert. Neither the `PlayerMatchStat` model nor
`PlayerMatchStatSerializer.validate` (which only computes the KDA) checks the
row's team against the match's sides. -/

def insertPlayerMatchStat (stats : List PlayerMatchStat)
    (row : PlayerMatchStat) : List PlayerMatchStat :=
  stats ++ [row]

/-- The metadata snapshot `update_match` captures in `previous_values` and
`restore_match_version` captures in `current_values`. -/

def Match.snapshot (m : Match) : MatchSnapshot :=
  { match_date := m.match_date
    scrim_type := m.scrim_type
    blue_side_team_id := m.blue_side_team_id
    red_side_team_id := m.red_side_team_id
    winning_team_id := m.winning_team_id
    general_notes := m.general_notes
    match_duration := m.match_duration
    game_number := m.game_number }

/-- The `setattr` loop of `restore_match_version` over a metadata snapshot:
write the snapshot's eight fields back onto the match. -/

def Match.applySnapshot (m : Match) (s : MatchSnapshot) : Match :=
  { m with
      match_date := s.match_date
      scrim_type := s.scrim_type
      blue_side_team_id := s.blue_side_team_id
      red_side_team_id := s.red_side_team_id
      winning_team_id := s.winning_team_id
      general_notes := s.general_notes
      match_duration := s.match_duration
      game_number := s.game_number }

/-- The stat snapshot `update_player_stats` captures in `previous_values` and
`restore_match_version` captures in `current_values`. -/

def PlayerMatchStat.snapshot (st : PlayerMatchStat) : StatSnapshot :=
  { kills := st.kills
    deaths := st.deaths
    assists := st.assists
    damage_dealt := st.damage_dealt
    damage_taken := st.damage_taken
    turret_damage := st.turret_damage
    teamfight_participation := st.teamfight_participation
    gold_earned := st.gold_earned
    player_notes := st.player_notes
    role_played := st.role_played
    hero_played_id := st.hero_played_id
    medal := st.medal }

/-- The `setattr` loop of `restore_match_version` over a stat snapshot. -/

def PlayerMatchStat.applySnapshot (st : PlayerMatchStat) (s : StatSnapshot) :
    PlayerMatchStat :=
  { st with
      kills := s.kills
      deaths := s.deaths
      assists := s.assists
      damage_dealt := s.damage_dealt
      damage_taken := s.damage_taken
      turret_damage := s.turret_damage
      teamfight_participation := s.teamfight_participation
      gold_earned := s.gold_earned
      player_notes := s.player_notes
      role_played := s.role_played
      hero_played_id := s.hero_played_id
      medal := s.medal }

namespace MatchStatsService

/-- `MatchStatsService.restore_match_version`: look up the history entry; for
a match-metadata edit, snapshot the current match fields, write the entry's
previous values back, and append a `MATCH_RESTORE` entry; for a player-stat
edit with its related stat row, do the same on the stat row (appending a
`PLAYER_STATS_RESTORE` entry) and recompute the match's score details.
`none` models the raised not-found errors; other edit types return the store
unchanged, as the source returns the match without mutating anything. -/
def restore_match_version (db : Db) (history_id : Nat) (user : String) :
    Option Db :=
  match db.history.find? (fun h => h.history_id = history_id) with
  | none => none
  | some h =>
    if h.edit_type = "MATCH_METADATA" then
      match db.findMatch h.match_id, h.previous_values with
      | some m, SnapshotVal.matchSnap s =>
        let current := m.snapshot
        let db1 := db.updateMatch (m.applySnapshot s)
        let entry : MatchEditHistory :=
          { history_id := db.nextHistoryId
            match_id := h.match_id
            edited_by := user
            previous_values := SnapshotVal.matchSnap current
            new_values := SnapshotVal.matchSnap s
            edit_type := "MATCH_RESTORE"
            edit_reason := "Restored to version"
            related_player_stat_id := none }
        some { db1 with
                 history := db1.history ++ [entry]
                 nextHistoryId := db1.nextHistoryId + 1 }
      | _, _ => none
    else if h.edit_type = "PLAYER_STATS" then
      match h.related_player_stat_id with
      | some sid =>
        match db.findStat sid, h.previous_values, db.findMatch h.match_id with
        | some st, SnapshotVal.statSnap s, some m =>
          let current := st.snapshot
          let db1 := db.updateStat (st.applySnapshot s)
          let entry : MatchEditHistory :=
            { history_id := db.nextHistoryId
              match_id := h.match_id
              edited_by := user
              previous_values := SnapshotVal.statSnap current
              new_values := SnapshotVal.statSnap s
              edit_type := "PLAYER_STATS_RESTORE"
              edit_reason := "Restored player stats to version"
              related_player_stat_id := some sid }
          let db2 := { db1 with
                         history := db1.history ++ [entry]
                         nextHistoryId := db1.nextHistoryId + 1 }
          some (calculate_score_details db2 m).1
        | _, _, _ => none
      | none => some db
    else some db

end MatchStatsService

/-- `api.models.MatchAward` (the fields the verified code writes). -/

structure AwardRow where
  match_id : Nat
  player_id : Nat
  award_type : String
  stat_value : Rat
deriving DecidableEq

/-- The match fields both award-assignment implementations read: the legacy
non-null `our_team` / `opponent_team` pair, the stored outcome, and the
human-selected MVP designations. -/

structure AwardMatchCtx where
  match_id : Nat
  our_team : Nat
  opponent_team : Nat
  match_outcome : String
  mvp : Option Nat
  mvp_loss : Option Nat
deriving DecidableEq

/-- The store slice award assignment reads and writes. -/

structure AwardDb where
  stats : List PlayerMatchStat
  awards : List AwardRow
deriving DecidableEq

/-- `MatchAward.objects.create(...)` applied to the top row of a queryset when
one exists: zero or one award row of the given type, its value read off the
selected stat row. -/

def awardOpt (mid : Nat) (ty : String) (sel : Option PlayerMatchStat)
    (val : PlayerMatchStat → Rat) : List AwardRow :=
  match sel with
  | some s =>
    [{ match_id := mid, player_id := s.player_id, award_type := ty,
       stat_value := val s }]
  | none => []

/-- The queryset chain `qs.exclude(f__isnull=True).filter(f__gt=0)` used for
the optional economy awards. -/

def econFilter (g : PlayerMatchStat → Option Int) (l : List PlayerMatchStat) :
    List PlayerMatchStat :=
  (l.filter (fun s => g s ≠ none)).filter (fun s => 0 < (g s).getD 0)

namespace AwardService

/-- The award rows `AwardService.assign_match_awards` creates for a match from
its stat rows: the human-selected MVP and losing-side MVP (when selected and
present among the rows), then best KDA, most kills, most assists, least
deaths among rows with positive deaths, and the four optional economy
superlatives. -/
def computed_awards (m : AwardMatchCtx) (all_stats : List PlayerMatchStat) :
    List AwardRow :=
  awardOpt m.match_id "MVP"
    (match m.mvp with
     | some p => all_stats.find? (fun s => s.player_id = p)
     | none => none)
    (fun s => s.computed_kda) ++
  awardOpt m.match_id "MVP_LOSS"
    (match m.mvp_loss with
     | some p => all_stats.find? (fun s => s.player_id = p)
     | none => none)
    (fun s => s.computed_kda) ++
  awardOpt m.match_id "BEST_KDA"
    (orderByDescFirst (fun s => s.computed_kda) all_stats)
    (fun s => s.computed_kda) ++
  awardOpt m.match_id "MOST_KILLS"
    (orderByDescFirst (fun s => (s.kills : Rat)) all_stats)
    (fun s => (s.kills : Rat)) ++
  awardOpt m.match_id "MOST_ASSISTS"
    (orderByDescFirst (fun s => (s.assists : Rat)) all_stats)
    (fun s => (s.assists : Rat)) ++
  awardOpt m.match_id "LEAST_DEATHS"
    (orderByAscFirst (fun s => (s.deaths : Rat))
      (all_stats.filter (fun s => 0 < s.deaths)))
    (fun s => (s.deaths : Rat)) ++
  awardOpt m.match_id "MOST_DAMAGE"
    (orderByDescFirst (fun s => ((s.damage_dealt.getD 0 : Int) : Rat))
      (econFilter (fun s => s.damage_dealt) all_stats))
    (fun s => ((s.damage_dealt.getD 0 : Int) : Rat)) ++
  awardOpt m.match_id "MOST_GOLD"
    (orderByDescFirst (fun s => ((s.gold_earned.getD 0 : Int) : Rat))
      (econFilter (fun s => s.gold_earned) all_stats))
    (fun s => ((s.gold_earned.getD 0 : Int) : Rat)) ++
  awardOpt m.match_id "MOST_TURRET_DAMAGE"
    (orderByDescFirst (fun s => ((s.turret_damage.getD 0 : Int) : Rat))
      (econFilter (fun s => s.turret_damage) all_stats))
    (fun s => ((s.turret_damage.getD 0 : Int) : Rat)) ++
  awardOpt m.match_id "MOST_DAMAGE_TAKEN"
    (orderByDescFirst (fun s => ((s.damage_taken.getD 0 : Int) : Rat))
      (econFilter (fun s => s.damage_taken) all_stats))
    (fun s => ((s.damage_taken.getD 0 : Int) : Rat))

/-- `AwardService.assign_match_awards`: delete the match's existing awards,
read its stat rows, and recreate the full award set (a no-op beyond the
delete when the match has no stat rows). -/
def assign_match_awards (db : AwardDb) (m : AwardMatchCtx) : AwardDb :=
  let db1 : AwardDb :=
    { db with awards := db.awards.filter (fun a => a.match_id ≠ m.match_id) }
  let all_stats := db1.stats.filter (fun s => s.match_id = m.match_id)
  if all_stats = [] then db1
  else { db1 with awards := db1.awards ++ computed_awards m all_stats }

end AwardService

namespace MatchAward

/-- `api.models.create_award_from_stat`: order the queryset by the stat field
(ascending or descending) and create one award of the given type for its top
row, when the queryset is nonempty. -/
def create_award_from_stat (mid : Nat) (stat_queryset : List PlayerMatchStat)
    (award_type : String) (key : PlayerMatchStat → Rat) (ascending : Bool) :
    List AwardRow :=
  awardOpt mid award_type
    (if ascending then orderByAscFirst key stat_queryset
     else orderByDescFirst key stat_queryset)
    key

/-- The award rows `MatchAward.assign_match_awards` creates for a match from
its stat rows: MVP and losing-side MVP computed as the highest KDA on the
winning and losing team (teams read from the outcome), then the same
computed awards as the service implementation. -/
def computed_awards (m : AwardMatchCtx) (all_stats : List PlayerMatchStat) :
    List AwardRow :=
  let winning_team :=
    if m.match_outcome = "VICTORY" then m.our_team else m.opponent_team
  let losing_team :=
    if m.match_outcome = "VICTORY" then m.opponent_team else m.our_team
  create_award_from_stat m.match_id
    (all_stats.filter (fun s => s.team_id = winning_team)) "MVP"
    (fun s => s.computed_kda) false ++
  create_award_from_stat m.match_id
    (all_stats.filter (fun s => s.team_id = losing_team)) "MVP_LOSS"
    (fun s => s.computed_kda) false ++
  create_award_from_stat m.match_id all_stats "BEST_KDA"
    (fun s => s.computed_kda) false ++
  create_award_from_stat m.match_id all_stats "MOST_KILLS"
    (fun s => (s.kills : Rat)) false ++
  create_award_from_stat m.match_id all_stats "MOST_ASSISTS"
    (fun s => (s.assists : Rat)) false ++
  create_award_from_stat m.match_id (all_stats.filter (fun s => 0 < s.deaths))
    "LEAST_DEATHS" (fun s => (s.deaths : Rat)) true ++
  create_award_from_stat m.match_id (econFilter (fun s => s.damage_dealt) all_stats)
    "MOST_DAMAGE" (fun s => ((s.damage_dealt.getD 0 : Int) : Rat)) false ++
  create_award_from_stat m.match_id (econFilter (fun s => s.gold_earned) all_stats)
    "MOST_GOLD" (fun s => ((s.gold_earned.getD 0 : Int) : Rat)) false ++
  create_award_from_stat m.match_id (econFilter (fun s => s.turret_damage) all_stats)
    "MOST_TURRET_DAMAGE" (fun s => ((s.turret_damage.getD 0 : Int) : Rat)) false ++
  create_award_from_stat m.match_id (econFilter (fun s => s.damage_taken) all_stats)
    "MOST_DAMAGE_TAKEN" (fun s => ((s.damage_taken.getD 0 : Int) : Rat)) false

/-- `MatchAward.assign_match_awards` (the model classmethod): delete the
match's existing awards, read its stat rows, and recreate the full award set. -/
def assign_match_awards (db : AwardDb) (m : AwardMatchCtx) : AwardDb :=
  let db1 : AwardDb :=
    { db with awards := db.awards.filter (fun a => a.match_id ≠ m.match_id) }
  let all_stats := db1.stats.filter (fun s => s.match_id = m.match_id)
  if all_stats = [] then db1
  else { db1 with awards := db1.awards ++ computed_awards m all_stats }

end MatchAward

/-- A match with a recorded winner but no `our_team` context: the code derives
an outcome from the blue-side perspective instead of leaving it unset. -/

def matchNoContext : Match :=
  { pk := 1
    scrim_group_id := none
    match_date := 0
    blue_side_team_id := some 1
    red_side_team_id := some 2
    our_team_id := none
    winning_team_id := some 2
    scrim_type := "SCRIMMAGE"
    match_outcome := none
    general_notes := none
    match_duration := none
    game_number := 1
    score_details := none }

/-- A match with an `our_team` context equal to the winner. -/

def matchOurWin : Match :=
  { matchNoContext with pk := 2, our_team_id := some 5, winning_team_id := some 5 }

/-- A stat row template with every optional field empty. -/

def baseStat : PlayerMatchStat :=
  { stats_id := 0
    match_id := 0
    player_id := 0
    team_id := 0
    role_played := none
    hero_played_id := none
    kills := 0
    deaths := 0
    assists := 0
    computed_kda := 0
    damage_dealt := none
    damage_taken := none
    turret_damage := none
    teamfight_participation := none
    gold_earned := none
    player_notes := none
    medal := none }

/-- The match row of the concrete score-details scenario. -/

def matchScore : Match :=
  { matchNoContext with
      pk := 7
      blue_side_team_id := some 1
      red_side_team_id := some 2 }

/-- A store with one match, its two teams and two stat rows, used as the
concrete score-details scenario. -/

def dbScore : Db :=
  { teams := [⟨1, "Alpha", "AL"⟩, ⟨2, "Beta", "BE"⟩]
    matchRows := [matchScore]
    stats :=
      [{ baseStat with
           stats_id := 1
           match_id := 7
           player_id := 10
           team_id := 1
           kills := 4
           deaths := 1
           assists := 3
           computed_kda := 7 },
       { baseStat with
           stats_id := 2
           match_id := 7
           player_id := 11
           team_id := 2
           kills := 6
           deaths := 2
           assists := 1
           computed_kda := 3 }]
    groups := []
    history := []
    nextGroupId := 0
    nextHistoryId := 0 }

/-- The canonical order of award types, as both implementations emit them. -/

def awardTypeOrder : List String :=
  ["MVP", "MVP_LOSS", "BEST_KDA", "MOST_KILLS", "MOST_ASSISTS", "LEAST_DEATHS",
   "MOST_DAMAGE", "MOST_GOLD", "MOST_TURRET_DAMAGE", "MOST_DAMAGE_TAKEN"]

/-- The match fields and stat rows of the concrete award scenario. -/

def awardCtxEx : AwardMatchCtx :=
  { match_id := 7
    our_team := 1
    opponent_team := 2
    match_outcome := "VICTORY"
    mvp := none
    mvp_loss := none }

/-- One stat row on the home team of the concrete award scenario. -/

def awardStatsEx : List PlayerMatchStat :=
  [{ baseStat with
       stats_id := 1
       match_id := 7
       player_id := 10
       team_id := 1
       kills := 2
       deaths := 1
       assists := 1
       computed_kda := 3 }]

/-- The store slice of the concrete award scenario. -/

def awardDbEx : AwardDb := { stats := awardStatsEx, awards := [] }

/-- A groupless match row between teams 1 (blue) and 2 (red) at a given
timestamp, used by the concrete session scenarios. -/

def sessionMatch (pk : Nat) (d : Int) : Match :=
  { matchNoContext with
      pk := pk
      match_date := d
      winning_team_id := none
      game_number := 0 }

/-- A store holding two groupless matches between the same side-assigned
teams of the same type, at the two given timestamps. -/

def dbSessionPair (d1 d2 : Int) : Db :=
  { teams := [⟨1, "Alpha", "AL"⟩, ⟨2, "Beta", "BE"⟩]
    matchRows := [sessionMatch 1 d1, sessionMatch 2 d2]
    stats := []
    groups := []
    history := []
    nextGroupId := 0
    nextHistoryId := 0 }

/-- The concrete inputs of the amended session-reuse rule: the first match
already carries session 5; the second match half an hour later reuses it. -/

def dbSessionSeeded : Db :=
  { dbSessionPair 600 630 with
      matchRows := [{ sessionMatch 1 600 with scrim_group_id := some 5 },
        sessionMatch 2 630]
      groups := [⟨5, "seeded", 0, none⟩]
      nextGroupId := 6 }

/-- The concrete third-team scenario: the match's sides are teams 1 and 2,
the raw row names team 3. -/

def createCtxEx : CreateMatchCtx :=
  { match_id := 7
    our_team := 1
    opponent_team := 2 }

/-- The stat row the service creates from the raw row named `Y` on the
concrete store: player 2 freshly created, team set to our side. -/
def createdRowY : PlayerMatchStat :=
  { baseStat with
      stats_id := 1
      match_id := 7
      player_id := 2
      team_id := 1 }

/-- A raw stat row whose team is neither side of `createCtxEx`. -/

def statRowThirdTeam : PlayerMatchStat :=
  { baseStat with
      stats_id := 9
      match_id := 7
      player_id := 1
      team_id := 3 }

/-- An empty raw stat dict. -/

def emptyStatInput : StatInputRow :=
  { player_id := none
    ign := none
    is_new_player := false
    role_played := none
    hero_played := none
    kills := none
    deaths := none
    assists := none
    kda := none
    damage_dealt := none
    damage_taken := none
    turret_damage := none
    teamfight_participation := none
    gold_earned := none
    player_notes := none
    medal := none }

/-- A player store used by the identity scenarios: player 1 now called
`NewName`, with historical alias `X`, currently on team 2. -/

def pdbAliasEx : PlayerDb :=
  { players := [⟨1, "NewName", none⟩]
    aliases := [⟨1, "X"⟩]
    team_history := [⟨1, 2, none⟩]
    nextPlayerId := 2 }

/-- The prior metadata values of the concrete restore scenario. -/

def snapEx : MatchSnapshot :=
  { match_date := 500
    scrim_type := "TOURNAMENT"
    blue_side_team_id := some 1
    red_side_team_id := some 2
    winning_team_id := some 1
    general_notes := none
    match_duration := none
    game_number := 3 }

/-- A recorded metadata edit of match 7 whose previous values are `snapEx`. -/

def historyEntryEx : MatchEditHistory :=
  { history_id := 1
    match_id := 7
    edited_by := "editor"
    previous_values := SnapshotVal.matchSnap snapEx
    new_values := SnapshotVal.matchSnap snapEx
    edit_type := "MATCH_METADATA"
    edit_reason := "edit"
    related_player_stat_id := none }

/-- A store holding match 7 and the recorded edit. -/

def dbHistEx : Db :=
  { teams := []
    matchRows := [matchScore]
    stats := []
    groups := []
    history := [historyEntryEx]
    nextGroupId := 0
    nextHistoryId := 2 }

/-- C1 (counterexample): a match with a recorded winning team (the red side)
and no home-team context gets the outcome `DEFEAT`, derived from the blue-side
perspective — not `None` as the claim states. -/
theorem c1_outcome_counterexample :
    matchNoContext.our_team_id = none ∧
    matchNoContext.winning_team_id = some 2 ∧
    MatchStatsService.determine_outcome matchNoContext ≠ none ∧
    MatchStatsService.determine_outcome matchNoContext = some "DEFEAT" := by
  decide

/-- C1 (amended): with a recorded nonzero winning team, the outcome is
`VICTORY` exactly when the winner equals a present home-team context and
`DEFEAT` otherwise; with no home-team context the outcome is not left unset
but derived from the blue-side perspective: `VICTORY` if the winner is the
blue side, `DEFEAT` otherwise. -/
theorem c1_outcome_amended (m : Match) (w : Nat)
    (hw : m.winning_team_id = some w) (hw0 : w ≠ 0) :
    (∀ o : Nat, o ≠ 0 → m.our_team_id = some o →
      (MatchStatsService.determine_outcome m = some "VICTORY" ↔ w = o) ∧
      (MatchStatsService.determine_outcome m = some "DEFEAT" ↔ w ≠ o)) ∧
    (m.our_team_id = none →
      MatchStatsService.determine_outcome m =
        some (if m.blue_side_team_id = some w then "VICTORY" else "DEFEAT")) := by
  constructor
  · intro o ho hmo
    unfold MatchStatsService.determine_outcome
    rw [hw, hmo]
    simp only [natTruthy, if_neg hw0, if_neg ho]
    by_cases h : w = o
    · simp [h]
    · simp [h]
  · intro hmo
    unfold MatchStatsService.determine_outcome
    rw [hw, hmo]
    simp only [natTruthy, if_neg hw0]
    split <;> rfl

/-- C1 (witness): the amended statement applied to a concrete match whose
home-team context equals the winner yields the outcome `VICTORY`. -/
theorem c1_outcome_amended_witness :
    MatchStatsService.determine_outcome matchOurWin = some "VICTORY" := by
  have h := (c1_outcome_amended matchOurWin 5 (by decide) (by decide)).1
    5 (by decide) (by decide)
  exact h.1.mpr rfl

/-- C9: with the KDA left for the serializer to compute, the computed KDA is
`(kills + assists) / deaths` when `deaths > 0` and `kills + assists` when
`deaths = 0`; in particular kills=3, assists=2 give 5 with deaths=0 and 5/2
with deaths=2. -/
theorem c9_kda_formula (k d a : Int)
    (hk : 0 ≤ k) (hd : 0 ≤ d) (ha : 0 ≤ a) :
    (0 < d →
      (PlayerMatchStatSerializer.validate
        ⟨none, some k, some d, some a⟩).computed_kda =
        some (((k : Rat) + (a : Rat)) / (d : Rat))) ∧
    (d = 0 →
      (PlayerMatchStatSerializer.validate
        ⟨none, some k, some d, some a⟩).computed_kda =
        some ((k : Rat) + (a : Rat))) ∧
    (PlayerMatchStatSerializer.validate
        ⟨none, some 3, some 0, some 2⟩).computed_kda = some 5 ∧
    (PlayerMatchStatSerializer.validate
        ⟨none, some 3, some 2, some 2⟩).computed_kda = some (5 / 2) := by
  refine ⟨?_, ?_, by simp [PlayerMatchStatSerializer.validate],
    by simp [PlayerMatchStatSerializer.validate]⟩
  · intro hdpos
    have hdne : d ≠ 0 := ne_of_gt hdpos
    simp [PlayerMatchStatSerializer.validate, Option.getD, hdne]
  · intro hd0
    subst hd0
    simp [PlayerMatchStatSerializer.validate, Option.getD]

/-- C9 (witness): the formula instantiated at kills=3, deaths=2, assists=2. -/
theorem c9_kda_formula_witness :
    (PlayerMatchStatSerializer.validate
        ⟨none, some 3, some 2, some 2⟩).computed_kda =
      some (((3 : Rat) + (2 : Rat)) / (2 : Rat)) :=
  (c9_kda_formula 3 2 2 (by decide) (by decide) (by decide)).1 (by decide)

/-- Summing a mapped value over a filter equals summing the value guarded by
the predicate over the whole list. -/
theorem sum_map_filter_int {α : Type} (l : List α) (p : α → Prop) [DecidablePred p]
    (f : α → Int) :
    ((l.filter (fun a => p a)).map f).sum =
      (l.map (fun a => if p a then f a else 0)).sum := by
  induction l with
  | nil => rfl
  | cons a t ih =>
    by_cases h : p a <;> simp [List.filter_cons, h, ih]

/-- Saving score details changes no stat rows. -/
theorem saveScoreDetails_statsOfMatch (db : Db) (pk : Nat) (sd : ScoreDetails)
    (q : Nat) : (db.saveScoreDetails pk sd).statsOfMatch q = db.statsOfMatch q := rfl

/-- Saving score details changes no team rows. -/
theorem saveScoreDetails_teamName (db : Db) (pk : Nat) (sd : ScoreDetails)
    (t : Nat) : (db.saveScoreDetails pk sd).teamName t = db.teamName t := rfl

/-- Saving the same score-details record twice equals saving it once. -/
theorem saveScoreDetails_idem (db : Db) (pk : Nat) (sd : ScoreDetails) :
    (db.saveScoreDetails pk sd).saveScoreDetails pk sd = db.saveScoreDetails pk sd := by
  unfold Db.saveScoreDetails
  simp only [List.map_map, Db.mk.injEq, and_true, true_and]
  apply List.map_congr_left
  intro x _
  by_cases h : x.pk = pk <;> simp [Function.comp, h]

/-- C7: for a match with at least one stat row, the recomputed score-details
record carries, per side, the sum of the kills of the stat rows on that side,
the side team names and the `kills` scoring marker; recomputing again on the
updated store returns the identical record and leaves the store unchanged. -/
theorem c7_score_details (db : Db) (m : Match)
    (hne : db.statsOfMatch m.pk ≠ []) :
    (∃ sd : ScoreDetails,
      (MatchStatsService.calculate_score_details db m).2 = some sd ∧
      sd.blue_side_score =
        ((db.statsOfMatch m.pk).map
          (fun s => if m.blue_side_team_id = some s.team_id then s.kills else 0)).sum ∧
      sd.red_side_score =
        ((db.statsOfMatch m.pk).map
          (fun s => if m.red_side_team_id = some s.team_id then s.kills else 0)).sum ∧
      sd.score_by = "kills" ∧
      (∀ bt : Nat, m.blue_side_team_id = some bt →
        sd.blue_side_team_name = db.teamName bt) ∧
      (∀ rt : Nat, m.red_side_team_id = some rt →
        sd.red_side_team_name = db.teamName rt)) ∧
    MatchStatsService.calculate_score_details
        (MatchStatsService.calculate_score_details db m).1 m =
      ((MatchStatsService.calculate_score_details db m).1,
        (MatchStatsService.calculate_score_details db m).2) := by
  constructor
  · simp only [MatchStatsService.calculate_score_details]
    rw [if_neg hne]
    refine ⟨_, rfl, ?_, ?_, rfl, ?_, ?_⟩
    · exact sum_map_filter_int (db.statsOfMatch m.pk)
        (fun s => m.blue_side_team_id = some s.team_id) (fun s => s.kills)
    · exact sum_map_filter_int (db.statsOfMatch m.pk)
        (fun s => m.red_side_team_id = some s.team_id) (fun s => s.kills)
    · intro bt hbt
      rw [hbt]
    · intro rt hrt
      rw [hrt]
  · by_cases hs : db.statsOfMatch m.pk = []
    · simp only [MatchStatsService.calculate_score_details]
      rw [if_pos hs, if_pos hs]
    · simp only [MatchStatsService.calculate_score_details]
      rw [if_neg hs]
      simp only [saveScoreDetails_statsOfMatch, saveScoreDetails_teamName]
      rw [if_neg hs]
      rw [saveScoreDetails_idem]

/-- An element returned by `orderByDescFirst` belongs to the queryset. -/
theorem orderByDescFirst_mem {α : Type} {key : α → Rat} {l : List α} {a : α}
    (h : orderByDescFirst key l = some a) : a ∈ l := by
  induction l with
  | nil => simp [orderByDescFirst] at h
  | cons b t ih =>
    simp only [orderByDescFirst] at h
    split at h
    · simp only [Option.some.injEq] at h
      subst h
      exact List.mem_cons_self _ _
    · rename_i c hc
      split at h <;> simp only [Option.some.injEq] at h <;> subst h
      · exact List.mem_cons_of_mem _ (ih hc)
      · exact List.mem_cons_self _ _

/-- An element returned by `orderByAscFirst` belongs to the queryset. -/
theorem orderByAscFirst_mem {α : Type} {key : α → Rat} {l : List α} {a : α}
    (h : orderByAscFirst key l = some a) : a ∈ l := by
  induction l with
  | nil => simp [orderByAscFirst] at h
  | cons b t ih =>
    simp only [orderByAscFirst] at h
    split at h
    · simp only [Option.some.injEq] at h
      subst h
      exact List.mem_cons_self _ _
    · rename_i c hc
      split at h <;> simp only [Option.some.injEq] at h <;> subst h
      · exact List.mem_cons_of_mem _ (ih hc)
      · exact List.mem_cons_self _ _

/-- Every award row built by `awardOpt` carries the given match id. -/
theorem awardOpt_match_id {mid : Nat} {ty : String} {sel : Option PlayerMatchStat}
    {val : PlayerMatchStat → Rat} {a : AwardRow}
    (h : a ∈ awardOpt mid ty sel val) : a.match_id = mid := by
  cases sel with
  | none => simp [awardOpt] at h
  | some s =>
    simp [awardOpt] at h
    subst h
    rfl

/-- Every award row built by `awardOpt` names the player of the selected row. -/
theorem awardOpt_player {mid : Nat} {ty : String} {sel : Option PlayerMatchStat}
    {val : PlayerMatchStat → Rat} {a : AwardRow}
    (h : a ∈ awardOpt mid ty sel val) :
    ∃ s, sel = some s ∧ a.player_id = s.player_id := by
  cases sel with
  | none => simp [awardOpt] at h
  | some s =>
    simp [awardOpt] at h
    exact ⟨s, rfl, by rw [h]⟩

/-- The award types produced by one `awardOpt` call form a sublist of the
singleton of its type. -/
theorem awardOpt_types_sublist (mid : Nat) (ty : String)
    (sel : Option PlayerMatchStat) (val : PlayerMatchStat → Rat) :
    ((awardOpt mid ty sel val).map (fun a => a.award_type)).Sublist [ty] := by
  cases sel with
  | none => simp [awardOpt]
  | some s => simp [awardOpt]

/-- Filtering one `awardOpt` segment by an award type keeps it whole or
empties it, depending on whether the types agree. -/
theorem filter_type_awardOpt (mid : Nat) (ty t : String)
    (sel : Option PlayerMatchStat) (val : PlayerMatchStat → Rat) :
    (awardOpt mid ty sel val).filter (fun a => a.award_type = t) =
      if ty = t then awardOpt mid ty sel val else [] := by
  cases sel with
  | none => simp [awardOpt]
  | some s => by_cases h : ty = t <;> simp [awardOpt, h]

/-- Filtering a list once more with the same predicate changes nothing. -/
theorem filter_idem {α : Type} (p : α → Bool) (l : List α) :
    (l.filter p).filter p = l.filter p := by
  induction l with
  | nil => rfl
  | cons a t ih => by_cases h : p a <;> simp [List.filter_cons, h, ih]

/-- In a list of award rows with pairwise distinct types, at most one row has
any given type. -/
theorem length_filter_type_le_one {l : List AwardRow}
    (h : (l.map (fun a => a.award_type)).Nodup) (t : String) :
    (l.filter (fun a => a.award_type = t)).length ≤ 1 := by
  induction l with
  | nil => simp
  | cons a l ih =>
    simp only [List.map_cons, List.nodup_cons] at h
    by_cases ht : a.award_type = t
    · have hnil : l.filter (fun x => x.award_type = t) = [] := by
        rw [List.filter_eq_nil_iff]
        intro x hx
        simp only [decide_eq_true_eq]
        intro hxt
        have hmem : x.award_type ∈ l.map (fun a => a.award_type) :=
          List.mem_map_of_mem _ hx
        rw [hxt, ← ht] at hmem
        exact h.1 hmem
      simp [List.filter_cons, ht, hnil]
    · simp only [List.filter_cons, ht]
      simp only [decide_eq_true_eq, if_neg ht]
      exact ih h.2

/-- The service implementation emits award types in canonical order, each at
most once. -/
theorem service_award_types_sublist (m : AwardMatchCtx)
    (st : List PlayerMatchStat) :
    ((AwardService.computed_awards m st).map (fun a => a.award_type)).Sublist
      awardTypeOrder := by
  unfold AwardService.computed_awards awardTypeOrder
  simp only [List.map_append, List.append_assoc]
  exact List.Sublist.append (awardOpt_types_sublist _ _ _ _)
    (List.Sublist.append (awardOpt_types_sublist _ _ _ _)
      (List.Sublist.append (awardOpt_types_sublist _ _ _ _)
        (List.Sublist.append (awardOpt_types_sublist _ _ _ _)
          (List.Sublist.append (awardOpt_types_sublist _ _ _ _)
            (List.Sublist.append (awardOpt_types_sublist _ _ _ _)
              (List.Sublist.append (awardOpt_types_sublist _ _ _ _)
                (List.Sublist.append (awardOpt_types_sublist _ _ _ _)
                  (List.Sublist.append (awardOpt_types_sublist _ _ _ _)
                    (awardOpt_types_sublist _ _ _ _)))))))))

/-- Award types created by the service implementation are pairwise distinct. -/
theorem service_award_types_nodup (m : AwardMatchCtx)
    (st : List PlayerMatchStat) :
    ((AwardService.computed_awards m st).map (fun a => a.award_type)).Nodup :=
  List.Nodup.sublist (service_award_types_sublist m st) (by decide)

/-- Every award row created by the service implementation carries the match id. -/
theorem service_award_mid {m : AwardMatchCtx} {st : List PlayerMatchStat}
    {a : AwardRow} (h : a ∈ AwardService.computed_awards m st) :
    a.match_id = m.match_id := by
  unfold AwardService.computed_awards at h
  simp only [List.append_assoc, List.mem_append] at h
  rcases h with h|h|h|h|h|h|h|h|h|h <;> exact awardOpt_match_id h

/-- Rows kept by `econFilter` come from the underlying queryset. -/
theorem econFilter_subset {g : PlayerMatchStat → Option Int}
    {l : List PlayerMatchStat} {s : PlayerMatchStat}
    (h : s ∈ econFilter g l) : s ∈ l :=
  List.mem_of_mem_filter (List.mem_of_mem_filter h)

/-- Every award row created by the service implementation names a player that
appears among the stat rows it was computed from. -/
theorem service_award_player {m : AwardMatchCtx} {st : List PlayerMatchStat}
    {a : AwardRow} (h : a ∈ AwardService.computed_awards m st) :
    a.player_id ∈ st.map (fun s => s.player_id) := by
  unfold AwardService.computed_awards at h
  simp only [List.append_assoc, List.mem_append] at h
  rcases h with h|h|h|h|h|h|h|h|h|h
  · obtain ⟨s, hsel, hp⟩ := awardOpt_player h
    rw [hp]
    cases hm : m.mvp with
    | none => rw [hm] at hsel; exact absurd hsel (by simp)
    | some p =>
      rw [hm] at hsel
      exact List.mem_map_of_mem _ (List.mem_of_find?_eq_some hsel)
  · obtain ⟨s, hsel, hp⟩ := awardOpt_player h
    rw [hp]
    cases hm : m.mvp_loss with
    | none => rw [hm] at hsel; exact absurd hsel (by simp)
    | some p =>
      rw [hm] at hsel
      exact List.mem_map_of_mem _ (List.mem_of_find?_eq_some hsel)
  · obtain ⟨s, hsel, hp⟩ := awardOpt_player h
    rw [hp]
    exact List.mem_map_of_mem _ (orderByDescFirst_mem hsel)
  · obtain ⟨s, hsel, hp⟩ := awardOpt_player h
    rw [hp]
    exact List.mem_map_of_mem _ (orderByDescFirst_mem hsel)
  · obtain ⟨s, hsel, hp⟩ := awardOpt_player h
    rw [hp]
    exact List.mem_map_of_mem _ (orderByDescFirst_mem hsel)
  · obtain ⟨s, hsel, hp⟩ := awardOpt_player h
    rw [hp]
    exact List.mem_map_of_mem _
      (List.mem_of_mem_filter (orderByAscFirst_mem hsel))
  · obtain ⟨s, hsel, hp⟩ := awardOpt_player h
    rw [hp]
    exact List.mem_map_of_mem _ (econFilter_subset (orderByDescFirst_mem hsel))
  · obtain ⟨s, hsel, hp⟩ := awardOpt_player h
    rw [hp]
    exact List.mem_map_of_mem _ (econFilter_subset (orderByDescFirst_mem hsel))
  · obtain ⟨s, hsel, hp⟩ := awardOpt_player h
    rw [hp]
    exact List.mem_map_of_mem _ (econFilter_subset (orderByDescFirst_mem hsel))
  · obtain ⟨s, hsel, hp⟩ := awardOpt_player h
    rw [hp]
    exact List.mem_map_of_mem _ (econFilter_subset (orderByDescFirst_mem hsel))

/-- C7 (witness): on the concrete store the recomputed record exists, scores
4 and 6 kills for the two sides, and recomputation is idempotent. -/
theorem c7_score_details_witness :
    (∃ sd : ScoreDetails,
      (MatchStatsService.calculate_score_details dbScore matchScore).2 = some sd ∧
      sd.blue_side_score =
        ((dbScore.statsOfMatch matchScore.pk).map
          (fun s => if matchScore.blue_side_team_id = some s.team_id then s.kills
                    else 0)).sum ∧
      sd.red_side_score =
        ((dbScore.statsOfMatch matchScore.pk).map
          (fun s => if matchScore.red_side_team_id = some s.team_id then s.kills
                    else 0)).sum ∧
      sd.score_by = "kills" ∧
      (∀ bt : Nat, matchScore.blue_side_team_id = some bt →
        sd.blue_side_team_name = dbScore.teamName bt) ∧
      (∀ rt : Nat, matchScore.red_side_team_id = some rt →
        sd.red_side_team_name = dbScore.teamName rt)) ∧
    MatchStatsService.calculate_score_details
        (MatchStatsService.calculate_score_details dbScore matchScore).1 matchScore =
      ((MatchStatsService.calculate_score_details dbScore matchScore).1,
        (MatchStatsService.calculate_score_details dbScore matchScore).2) :=
  c7_score_details dbScore matchScore (by decide)

/-- Clearing a match's awards removes every row the recreate step just added. -/
theorem filter_ne_computed_awards (m : AwardMatchCtx) (st : List PlayerMatchStat) :
    (AwardService.computed_awards m st).filter
      (fun a => a.match_id ≠ m.match_id) = [] := by
  rw [List.filter_eq_nil_iff]
  intro a ha
  simp only [ne_eq, decide_not, Bool.not_eq_true', decide_eq_false_iff_not, not_not]
  exact service_award_mid ha

/-- With no stat rows, the service implementation creates no awards. -/
theorem service_computed_awards_nil (m : AwardMatchCtx) :
    AwardService.computed_awards m [] = [] := by
  cases hm : m.mvp <;> cases hl : m.mvp_loss <;>
    simp [AwardService.computed_awards, awardOpt, econFilter,
      orderByDescFirst, orderByAscFirst, hm, hl]

/-- Normal form of `AwardService.assign_match_awards`: the surviving awards of
other matches followed by the freshly computed award set of this match. -/
theorem service_assign_eq (db : AwardDb) (m : AwardMatchCtx) :
    AwardService.assign_match_awards db m =
      { stats := db.stats
        awards := db.awards.filter (fun a => a.match_id ≠ m.match_id) ++
          AwardService.computed_awards m
            (db.stats.filter (fun s => s.match_id = m.match_id)) } := by
  unfold AwardService.assign_match_awards
  by_cases hs : db.stats.filter (fun s => s.match_id = m.match_id) = []
  · simp only [hs, service_computed_awards_nil, List.append_nil, if_pos]
  · simp only [hs, if_neg, ite_false]

/-- Every award row created by the model implementation carries the match id. -/
theorem model_award_mid {m : AwardMatchCtx} {st : List PlayerMatchStat}
    {a : AwardRow} (h : a ∈ MatchAward.computed_awards m st) :
    a.match_id = m.match_id := by
  unfold MatchAward.computed_awards at h
  simp only [List.append_assoc, List.mem_append] at h
  rcases h with h|h|h|h|h|h|h|h|h|h <;> exact awardOpt_match_id h

/-- Clearing a match's awards removes every row the model recreate step just
added. -/
theorem filter_ne_model_computed_awards (m : AwardMatchCtx)
    (st : List PlayerMatchStat) :
    (MatchAward.computed_awards m st).filter
      (fun a => a.match_id ≠ m.match_id) = [] := by
  rw [List.filter_eq_nil_iff]
  intro a ha
  simp only [ne_eq, decide_not, Bool.not_eq_true', decide_eq_false_iff_not, not_not]
  exact model_award_mid ha

/-- With no stat rows, the model implementation creates no awards. -/
theorem model_computed_awards_nil (m : AwardMatchCtx) :
    MatchAward.computed_awards m [] = [] := by
  simp [MatchAward.computed_awards, MatchAward.create_award_from_stat, awardOpt,
    econFilter, orderByDescFirst, orderByAscFirst]

/-- Normal form of `MatchAward.assign_match_awards`. -/
theorem model_assign_eq (db : AwardDb) (m : AwardMatchCtx) :
    MatchAward.assign_match_awards db m =
      { stats := db.stats
        awards := db.awards.filter (fun a => a.match_id ≠ m.match_id) ++
          MatchAward.computed_awards m
            (db.stats.filter (fun s => s.match_id = m.match_id)) } := by
  unfold MatchAward.assign_match_awards
  by_cases hs : db.stats.filter (fun s => s.match_id = m.match_id) = []
  · simp only [hs, model_computed_awards_nil, List.append_nil, if_pos]
  · simp only [hs, if_neg, ite_false]

/-- C5: award assignment is idempotent under both implementations (running it
twice equals running it once on an unchanged match); after assignment the
match carries at most one award of any type, and every award for the match
names a player occurring in its stat rows. -/
theorem c5_award_assignment (db : AwardDb) (m : AwardMatchCtx) (t : String) :
    AwardService.assign_match_awards (AwardService.assign_match_awards db m) m =
      AwardService.assign_match_awards db m ∧
    MatchAward.assign_match_awards (MatchAward.assign_match_awards db m) m =
      MatchAward.assign_match_awards db m ∧
    ((AwardService.assign_match_awards db m).awards.filter
        (fun a => a.match_id = m.match_id ∧ a.award_type = t)).length ≤ 1 ∧
    (∀ a ∈ (AwardService.assign_match_awards db m).awards,
      a.match_id = m.match_id →
        a.player_id ∈ (db.stats.filter (fun s => s.match_id = m.match_id)).map
          (fun s => s.player_id)) := by
  refine ⟨?_, ?_, ?_, ?_⟩
  · simp only [service_assign_eq]
    simp only [List.filter_append, filter_idem, filter_ne_computed_awards,
      List.append_nil]
  · simp only [model_assign_eq]
    simp only [List.filter_append, filter_idem, filter_ne_model_computed_awards,
      List.append_nil]
  · rw [service_assign_eq]
    have h1 : (db.awards.filter (fun a => a.match_id ≠ m.match_id)).filter
        (fun a => a.match_id = m.match_id ∧ a.award_type = t) = [] := by
      rw [List.filter_eq_nil_iff]
      intro a ha
      have hne : a.match_id ≠ m.match_id := by
        have := List.of_mem_filter ha
        simpa using this
      simp [hne]
    have h2 : (AwardService.computed_awards m
          (db.stats.filter (fun s => s.match_id = m.match_id))).filter
        (fun a => a.match_id = m.match_id ∧ a.award_type = t) =
        (AwardService.computed_awards m
          (db.stats.filter (fun s => s.match_id = m.match_id))).filter
        (fun a => a.award_type = t) := by
      apply List.filter_congr
      intro a ha
      simp [service_award_mid ha]
    simp only [List.filter_append, h1, h2, List.nil_append]
    exact length_filter_type_le_one (service_award_types_nodup m _) t
  · intro a ha hmid
    rw [service_assign_eq] at ha
    simp only [List.mem_append] at ha
    rcases ha with ha | ha
    · have hne : a.match_id ≠ m.match_id := by
        have := List.of_mem_filter ha
        simpa using this
      exact absurd hmid hne
    · exact service_award_player ha

/-- C5 (witness): on the concrete store, assigning twice equals assigning
once, and the BEST_KDA winner is a player of the match's stat rows. -/
theorem c5_award_assignment_witness :
    AwardService.assign_match_awards
        (AwardService.assign_match_awards awardDbEx awardCtxEx) awardCtxEx =
      AwardService.assign_match_awards awardDbEx awardCtxEx ∧
    (10 : Nat) ∈ (awardDbEx.stats.filter
        (fun s => s.match_id = awardCtxEx.match_id)).map
      (fun s => s.player_id) := by
  refine ⟨(c5_award_assignment awardDbEx awardCtxEx "MVP").1, ?_⟩
  exact (c5_award_assignment awardDbEx awardCtxEx "MVP").2.2.2
    ⟨7, 10, "BEST_KDA", 3⟩ (by decide) (by decide)

/-- C6 (amended): for the eight computed award types the two implementations
agree — same winner and same stat value. -/
theorem c6_award_implementations_amended (m : AwardMatchCtx)
    (st : List PlayerMatchStat) (t : String)
    (ht : t ∈ ["BEST_KDA", "MOST_KILLS", "MOST_ASSISTS", "LEAST_DEATHS",
      "MOST_DAMAGE", "MOST_GOLD", "MOST_TURRET_DAMAGE", "MOST_DAMAGE_TAKEN"]) :
    (AwardService.computed_awards m st).filter (fun a => a.award_type = t) =
      (MatchAward.computed_awards m st).filter (fun a => a.award_type = t) := by
  fin_cases ht <;>
    simp [AwardService.computed_awards, MatchAward.computed_awards,
      MatchAward.create_award_from_stat, List.filter_append, filter_type_awardOpt]

/-- C6 (witness): on the concrete scenario both implementations award
BEST_KDA identically. -/
theorem c6_award_implementations_amended_witness :
    (AwardService.computed_awards awardCtxEx awardStatsEx).filter
        (fun a => a.award_type = "BEST_KDA") =
      (MatchAward.computed_awards awardCtxEx awardStatsEx).filter
        (fun a => a.award_type = "BEST_KDA") :=
  c6_award_implementations_amended awardCtxEx awardStatsEx "BEST_KDA" (by decide)

/-- C6 (counterexample): with no human-selected MVP and a winning-side stat
row, the service implementation creates no MVP award while the model
implementation awards MVP to the best KDA of the winning side — the two award
sets differ. -/
theorem c6_award_implementations_counterexample :
    AwardService.computed_awards awardCtxEx awardStatsEx ≠
      MatchAward.computed_awards awardCtxEx awardStatsEx ∧
    (AwardService.computed_awards awardCtxEx awardStatsEx).filter
        (fun a => a.award_type = "MVP") = [] ∧
    (MatchAward.computed_awards awardCtxEx awardStatsEx).filter
        (fun a => a.award_type = "MVP") = [⟨7, 10, "MVP", 3⟩] := by
  refine ⟨by decide, by decide, by decide⟩

/-- `orderByDescFirst` returns the strict maximum when the queryset has one. -/
theorem orderByDescFirst_eq_of_unique_max {α : Type} (key : α → Rat)
    {l : List α} {p : α} (hp : p ∈ l)
    (hmax : ∀ q ∈ l, q ≠ p → key q < key p) :
    orderByDescFirst key l = some p := by
  induction l with
  | nil => cases hp
  | cons b t ih =>
    by_cases hb : b = p
    · subst hb
      simp only [orderByDescFirst]
      cases ht : orderByDescFirst key t with
      | none => rfl
      | some c =>
        by_cases hcb : c = b
        · rw [hcb]
          simp [lt_irrefl]
        · have hlt := hmax c (List.mem_cons_of_mem _ (orderByDescFirst_mem ht)) hcb
          have hnl := not_lt_of_gt hlt
          simp [hnl]
    · have hpt : p ∈ t := by
        rcases List.mem_cons.mp hp with h | h
        · exact absurd h.symm hb
        · exact h
      have ih' := ih hpt (fun q hq hqp => hmax q (List.mem_cons_of_mem _ hq) hqp)
      simp only [orderByDescFirst, ih']
      simp [hmax b (List.mem_cons_self _ _) hb]

/-- A row found by primary key satisfies the key predicate. -/
theorem findMatch_pk {db : Db} {pk : Nat} {m : Match}
    (hf : db.findMatch pk = some m) : m.pk = pk := by
  unfold Db.findMatch at hf
  have h1 := List.find?_some hf
  simpa using h1

/-- Updating the found row makes the subsequent lookup return the update. -/
theorem find?_pk_map_update {l : List Match} {pk : Nat} {m m' : Match}
    (hf : l.find? (fun x => x.pk = pk) = some m) (hpk : m'.pk = pk) :
    (l.map (fun x => if x.pk = m'.pk then m' else x)).find?
      (fun x => x.pk = pk) = some m' := by
  induction l with
  | nil => simp at hf
  | cons a t ih =>
    by_cases ha : a.pk = pk
    · have hcond : a.pk = m'.pk := by rw [hpk]; exact ha
      simp only [List.map_cons, if_pos hcond]
      exact List.find?_cons_of_pos _ (by simp [hpk])
    · have hcond : ¬ a.pk = m'.pk := by rw [hpk]; exact ha
      simp only [List.map_cons, if_neg hcond]
      rw [List.find?_cons_of_neg _ (by simp [ha])] at hf
      rw [List.find?_cons_of_neg _ (by simp [ha])]
      exact ih hf

/-- Store-level form of `find?_pk_map_update`. -/
theorem findMatch_updateMatch {db : Db} {pk : Nat} {m m' : Match}
    (hf : db.findMatch pk = some m) (hpk : m'.pk = pk) :
    (db.updateMatch m').findMatch pk = some m' := by
  unfold Db.findMatch Db.updateMatch at *
  exact find?_pk_map_update hf hpk

/-- Group selection never touches the match table. -/
theorem scrim_group_for_matchRows (db : Db) (m : Match) :
    (MatchStatsService.scrim_group_for db m).1.matchRows = db.matchRows := by
  unfold MatchStatsService.scrim_group_for MatchStatsService.get_or_create_group
  repeat' split
  all_goals rfl

/-- Replacing a row that a filter excludes does not change the filter. -/
theorem filter_excl_update (l : List Match) (m' : Match) (P : Match → Bool)
    (hP : P m' = false) (hPpk : ∀ x, x.pk = m'.pk → P x = false) :
    (l.map (fun x => if x.pk = m'.pk then m' else x)).filter P = l.filter P := by
  induction l with
  | nil => rfl
  | cons a t ih =>
    simp only [List.map_cons, List.filter_cons]
    by_cases ha : a.pk = m'.pk
    · rw [if_pos ha, hP, hPpk a ha]
      exact ih
    · rw [if_neg ha]
      cases hPa : P a <;> simp [hPa, ih]

/-- C2 (counterexample): two matches between the same side-assigned teams of
the same type, 7 hours (420 minutes) apart on the same calendar day, end up
in the SAME session: the second match falls outside the six-hour window, but
`get_or_create` finds the first match's group under the identical
name-and-date key and reuses it. -/
theorem c2_session_window_counterexample :
    (1020 : Int) - 600 = 420 ∧
    (let db1 := MatchStatsService.assign_scrim_group_for_match
        (dbSessionPair 600 1020) 1
     let db2 := MatchStatsService.assign_scrim_group_for_match db1 2
     ((db2.findMatch 1).map Match.scrim_group_id = some (some 0)) ∧
     ((db2.findMatch 2).map Match.scrim_group_id = some (some 0))) := by
  refine ⟨by decide, by decide, by decide⟩

/-- C2 (amended): session search matches the ordered side assignment (same
blue-side team and same red-side team) and the same match type, over the
half-open trailing six-hour window; when the unique most recent such match
has a session, that session is reused for the new match. (With no windowed
predecessor the match is attached via get-or-create to a group keyed by team
names, calendar date and match type, so a second match 7 hours later on the
same calendar date still shares the session.) -/
theorem c2_session_assignment_amended (db : Db) (pk : Nat) (m p : Match) (g : Nat)
    (hfind : db.findMatch pk = some m)
    (hguard : ¬(m.blue_side_team_id = none ∨ m.red_side_team_id = none ∨
      m.scrim_type = ""))
    (hp : p ∈ MatchStatsService.previous_match_query db m)
    (hg : p.scrim_group_id = some g)
    (hmax : ∀ q ∈ MatchStatsService.previous_match_query db m,
      q ≠ p → q.match_date < p.match_date) :
    ((MatchStatsService.assign_scrim_group_for_match db pk).findMatch pk).map
      Match.scrim_group_id = some (some g) := by
  have hmpk : m.pk = pk := findMatch_pk hfind
  have hsel : orderByDescFirst (fun x => (x.match_date : Rat))
      (MatchStatsService.previous_match_query db m) = some p := by
    apply orderByDescFirst_eq_of_unique_max _ hp
    intro q hq hqp
    exact_mod_cast hmax q hq hqp
  have hsg : MatchStatsService.scrim_group_for db m = (db, g) := by
    unfold MatchStatsService.scrim_group_for
    rw [hsel]
    simp [hg]
  have hfind2 : (db.updateMatch { m with scrim_group_id := some g }).findMatch pk =
      some { m with scrim_group_id := some g } :=
    findMatch_updateMatch hfind hmpk
  have hmap : ∀ (X : Db) (mm m'' : Match), X.findMatch pk = some mm → m''.pk = pk →
      ((X.updateMatch m'').findMatch pk).map Match.scrim_group_id =
        some m''.scrim_group_id := by
    intro X mm m'' hf hpk
    rw [findMatch_updateMatch hf hpk]
    rfl
  simp only [MatchStatsService.assign_scrim_group_for_match, hfind]
  rw [if_neg hguard, hsg]
  exact hmap (db.updateMatch { m with scrim_group_id := some g }) _ _ hfind2 hmpk

/-- C2 (witness): the amended rule applied to the seeded concrete store —
the second match reuses session 5 of the match 30 minutes before it. -/
theorem c2_session_assignment_amended_witness :
    ((MatchStatsService.assign_scrim_group_for_match dbSessionSeeded 2).findMatch 2).map
      Match.scrim_group_id = some (some 5) := by
  apply c2_session_assignment_amended dbSessionSeeded 2 (sessionMatch 2 630)
    { sessionMatch 1 600 with scrim_group_id := some 5 } 5
  · decide
  · decide
  · decide
  · decide
  · decide

/-- C8: once the session is fixed, the assigned game number equals one plus
the count of other matches already in that session; and concretely, two
matches between the same teams of the same type 30 minutes apart land in one
session with game numbers 1 and 2 in timestamp order. -/
theorem c8_sequence_number (db : Db) (pk : Nat) (m : Match)
    (hfind : db.findMatch pk = some m)
    (hguard : ¬(m.blue_side_team_id = none ∨ m.red_side_team_id = none ∨
      m.scrim_type = "")) :
    (∃ g m',
      (MatchStatsService.assign_scrim_group_for_match db pk).findMatch pk =
        some m' ∧
      m'.scrim_group_id = some g ∧
      m'.game_number = ((db.matchRows.filter (fun x =>
        x.scrim_group_id = some g ∧ x.pk ≠ pk)).length : Int) + 1) ∧
    (let db1 := MatchStatsService.assign_scrim_group_for_match
        (dbSessionPair 600 630) 1
     let db2 := MatchStatsService.assign_scrim_group_for_match db1 2
     (db2.findMatch 1).map Match.scrim_group_id = some (some 0) ∧
     (db2.findMatch 2).map Match.scrim_group_id = some (some 0) ∧
     (db2.findMatch 1).map Match.game_number = some 1 ∧
     (db2.findMatch 2).map Match.game_number = some 2 ∧
     (600 : Int) < 630) := by
  constructor
  · have hmpk : m.pk = pk := findMatch_pk hfind
    rcases hsg : MatchStatsService.scrim_group_for db m with ⟨db1, gid⟩
    have hdb1 : db1.matchRows = db.matchRows := by
      have h := scrim_group_for_matchRows db m
      rw [hsg] at h
      exact h
    have hfind1 : db1.findMatch pk = some m := by
      unfold Db.findMatch
      rw [hdb1]
      exact hfind
    have hfind2 : (db1.updateMatch { m with scrim_group_id := some gid }).findMatch
        pk = some { m with scrim_group_id := some gid } :=
      findMatch_updateMatch hfind1 hmpk
    have hcnt : (((db1.updateMatch { m with scrim_group_id := some gid }).matchRows.filter
          (fun x => x.scrim_group_id = some gid ∧ x.pk ≠ m.pk)).length : Int) =
        ((db.matchRows.filter (fun x =>
          x.scrim_group_id = some gid ∧ x.pk ≠ pk)).length : Int) := by
      have heq : (db1.updateMatch { m with scrim_group_id := some gid }).matchRows.filter
            (fun x => x.scrim_group_id = some gid ∧ x.pk ≠ m.pk) =
          db.matchRows.filter (fun x => x.scrim_group_id = some gid ∧ x.pk ≠ m.pk) := by
        show (db1.matchRows.map _).filter _ = _
        rw [filter_excl_update, hdb1]
        · simp
        · intro x hx
          simp [hx]
      rw [heq, hmpk]
    simp only [MatchStatsService.assign_scrim_group_for_match, hfind]
    rw [if_neg hguard, hsg]
    refine ⟨gid, _, findMatch_updateMatch hfind2 hmpk, rfl, ?_⟩
    exact congrArg (fun n => n + 1) hcnt
  · refine ⟨by decide, by decide, by decide, by decide, by decide⟩

/-- C8 (witness): the general game-number rule applied to the seeded store —
the second match receives game number 2, one plus the one other match already
in session 5. -/
theorem c8_sequence_number_witness :
    ∃ g m',
      (MatchStatsService.assign_scrim_group_for_match dbSessionSeeded 2).findMatch 2 =
        some m' ∧
      m'.scrim_group_id = some g ∧
      m'.game_number = ((dbSessionSeeded.matchRows.filter (fun x =>
        x.scrim_group_id = some g ∧ x.pk ≠ 2)).length : Int) + 1 :=
  (c8_sequence_number dbSessionSeeded 2 (sessionMatch 2 630)
    (by decide) (by decide)).1

/-- Every stat row created by one side's loop carries that side's team. -/
theorem create_stats_for_team_teams (mid team : Nat) :
    ∀ (l : List StatInputRow) (pdb : PlayerDb) (sid0 : Nat)
      (r : PlayerMatchStat),
      r ∈ (MatchStatsService.create_stats_for_team pdb mid team sid0 l).2.2 →
      r.team_id = team := by
  intro l
  induction l with
  | nil =>
    intro pdb sid0 r hr
    simp [MatchStatsService.create_stats_for_team] at hr
  | cons d rest ih =>
    intro pdb sid0 r hr
    simp only [MatchStatsService.create_stats_for_team] at hr
    rcases List.mem_cons.mp hr with h | h
    · subst h
      rfl
    · exact ih _ _ _ h

/-- C3 (counterexample): a direct stat write whose team is a third team is
persisted, not rejected — the row is stored although its team is neither of
the match's two sides; no write-time validation exists. -/
theorem c3_third_team_write_counterexample :
    insertPlayerMatchStat [] statRowThirdTeam = [statRowThirdTeam] ∧
    statRowThirdTeam ∈ insertPlayerMatchStat [] statRowThirdTeam ∧
    statRowThirdTeam.team_id ≠ createCtxEx.our_team ∧
    statRowThirdTeam.team_id ≠ createCtxEx.opponent_team := by
  refine ⟨by decide, by decide, by decide, by decide⟩

/-- C3 (amended): every stat row created through the service's stat-creation
path carries one of the match's two teams, set from the match relationship by
construction (no validator enforces this for writes outside that path). -/
theorem c3_created_stats_on_sides (pdb : PlayerDb) (m : CreateMatchCtx)
    (team_stats opponent_stats : List StatInputRow) (sid0 : Nat) :
    ∀ r ∈ (MatchStatsService._create_stats pdb m team_stats opponent_stats
        sid0).2.2,
      r.team_id = m.our_team ∨ r.team_id = m.opponent_team := by
  intro r hr
  simp only [MatchStatsService._create_stats, List.mem_append] at hr
  rcases hr with h | h
  · exact Or.inl (create_stats_for_team_teams _ _ _ _ _ _ h)
  · exact Or.inr (create_stats_for_team_teams _ _ _ _ _ _ h)

/-- C3 (witness): the amended rule at a concrete input — the one created row
carries our side's team. -/
theorem c3_created_stats_on_sides_witness :
    createdRowY.team_id = createCtxEx.our_team ∨
    createdRowY.team_id = createCtxEx.opponent_team :=
  c3_created_stats_on_sides pdbAliasEx createCtxEx
    [{ emptyStatInput with ign := some "Y" }] [] 1 createdRowY (by decide)

/-- C4 (counterexample): resolving the name `X` against team 1, when its only
match is an alias of a player currently on team 2, returns a bare
`create_new` needs-verification directive: it carries no candidate matches
(`player_id` is `none`) and offers no `transfer_player` decision, although a
global alias search does find the candidate. -/
theorem c4_resolution_counterexample :
    (PlayerService.find_player_by_ign pdbAliasEx "X" none).map
        (fun p => p.player_id) = some 1 ∧
    MatchStatsService._resolve_player pdbAliasEx
        { emptyStatInput with ign := some "X" } 1 =
      { action := "create_new"
        player_id := none
        ign := some "X"
        team_id := some 1
        role_played := none
        needs_verification := true
        verification_type := some "ign_not_found"
        error := none } ∧
    (MatchStatsService._resolve_player pdbAliasEx
        { emptyStatInput with ign := some "X" } 1).player_id = none := by
  refine ⟨by decide, by decide, by decide⟩

/-- C4 (amended): for a name with no supplied id, not marked new, and no
team-scoped IGN or alias match, `_resolve_player` returns a needs-verification
`create_new` directive that silently picks no player and performs no
transfer: it carries no candidate matches and the only caller decision it
proposes is `create_new` (`verification_type` is `ign_not_found`). -/
theorem c4_resolution_amended (pdb : PlayerDb) (d : StatInputRow) (tid : Nat)
    (s : String) (hID : d.player_id = none) (hnew : d.is_new_player = false)
    (hign : d.ign = some s) (hs : s ≠ "")
    (hfind : PlayerService.find_player_by_ign pdb s (some tid) = none) :
    MatchStatsService._resolve_player pdb d tid =
      { action := "create_new"
        player_id := none
        ign := some s
        team_id := some tid
        role_played := d.role_played
        needs_verification := true
        verification_type := some "ign_not_found"
        error := none } ∧
    (MatchStatsService._resolve_player pdb d tid).needs_verification = true ∧
    (MatchStatsService._resolve_player pdb d tid).player_id = none := by
  have h : MatchStatsService._resolve_player pdb d tid =
      { action := "create_new"
        player_id := none
        ign := some s
        team_id := some tid
        role_played := d.role_played
        needs_verification := true
        verification_type := some "ign_not_found"
        error := none } := by
    simp only [MatchStatsService._resolve_player, hID, hnew, hign, natTruthy,
      strTruthy, if_neg hs, hfind]
    rfl
  exact ⟨h, by rw [h], by rw [h]⟩

/-- C4 (witness): the amended rule applied to the alias-on-another-team
store. -/
theorem c4_resolution_amended_witness :
    MatchStatsService._resolve_player pdbAliasEx
        { emptyStatInput with ign := some "X" } 1 =
      { action := "create_new"
        player_id := none
        ign := some "X"
        team_id := some 1
        role_played := none
        needs_verification := true
        verification_type := some "ign_not_found"
        error := none } :=
  (c4_resolution_amended pdbAliasEx { emptyStatInput with ign := some "X" } 1 "X"
    (by decide) (by decide) (by decide) (by decide) (by decide)).1

/-- Appending history entries does not change match lookups. -/
theorem findMatch_set_history (db : Db) (hist : List MatchEditHistory)
    (nh : Nat) (pk : Nat) :
    ({ db with history := hist, nextHistoryId := nh } : Db).findMatch pk =
      db.findMatch pk := rfl

/-- Appending history entries does not change stat lookups. -/
theorem findStat_set_history (db : Db) (hist : List MatchEditHistory)
    (nh : Nat) (sid : Nat) :
    ({ db with history := hist, nextHistoryId := nh } : Db).findStat sid =
      db.findStat sid := rfl

/-- A stat row found by primary key satisfies the key predicate. -/
theorem findStat_sid {db : Db} {sid : Nat} {st : PlayerMatchStat}
    (hf : db.findStat sid = some st) : st.stats_id = sid := by
  unfold Db.findStat at hf
  have h1 := List.find?_some hf
  simpa using h1

/-- Updating the found stat row makes the subsequent lookup return the
update. -/
theorem find?_sid_map_update {l : List PlayerMatchStat} {sid : Nat}
    {st st' : PlayerMatchStat}
    (hf : l.find? (fun x => x.stats_id = sid) = some st)
    (hsid : st'.stats_id = sid) :
    (l.map (fun x => if x.stats_id = st'.stats_id then st' else x)).find?
      (fun x => x.stats_id = sid) = some st' := by
  induction l with
  | nil => simp at hf
  | cons a t ih =>
    by_cases ha : a.stats_id = sid
    · have hcond : a.stats_id = st'.stats_id := by rw [hsid]; exact ha
      simp only [List.map_cons, if_pos hcond]
      exact List.find?_cons_of_pos _ (by simp [hsid])
    · have hcond : ¬ a.stats_id = st'.stats_id := by rw [hsid]; exact ha
      simp only [List.map_cons, if_neg hcond]
      rw [List.find?_cons_of_neg _ (by simp [ha])] at hf
      rw [List.find?_cons_of_neg _ (by simp [ha])]
      exact ih hf

/-- Store-level form of `find?_sid_map_update`. -/
theorem findStat_updateStat {db : Db} {sid : Nat} {st st' : PlayerMatchStat}
    (hf : db.findStat sid = some st) (hsid : st'.stats_id = sid) :
    (db.updateStat st').findStat sid = some st' := by
  unfold Db.findStat Db.updateStat at *
  exact find?_sid_map_update hf hsid

/-- Score recomputation does not touch the edit ledger. -/
theorem calculate_score_details_history (db : Db) (m : Match) :
    (MatchStatsService.calculate_score_details db m).1.history = db.history := by
  unfold MatchStatsService.calculate_score_details
  by_cases hs : db.statsOfMatch m.pk = [] <;> simp [hs, Db.saveScoreDetails]

/-- Score recomputation does not touch the stat rows. -/
theorem calculate_score_details_findStat (db : Db) (m : Match) (sid : Nat) :
    (MatchStatsService.calculate_score_details db m).1.findStat sid =
      db.findStat sid := by
  unfold MatchStatsService.calculate_score_details
  by_cases hs : db.statsOfMatch m.pk = [] <;>
    simp [hs, Db.saveScoreDetails, Db.findStat]

/-- C10: restoring an edit-ledger entry writes the entry's previous values
back onto the edited object (match metadata or player-stat row), appends one
new restore-type entry, and leaves every existing entry in place, for both
edit types. -/
theorem c10_restore_edit (db : Db) (hid : Nat) (user : String)
    (h : MatchEditHistory)
    (hfind : db.history.find? (fun e => e.history_id = hid) = some h) :
    (∀ (m : Match) (s : MatchSnapshot),
      h.edit_type = "MATCH_METADATA" →
      h.previous_values = SnapshotVal.matchSnap s →
      db.findMatch h.match_id = some m →
      ∃ db', MatchStatsService.restore_match_version db hid user = some db' ∧
        (db'.findMatch h.match_id).map Match.snapshot = some s ∧
        ∃ e, db'.history = db.history ++ [e] ∧ e.edit_type = "MATCH_RESTORE" ∧
          e.previous_values = SnapshotVal.matchSnap m.snapshot ∧
          e.new_values = SnapshotVal.matchSnap s) ∧
    (∀ (st : PlayerMatchStat) (sm : StatSnapshot) (sid : Nat) (m : Match),
      h.edit_type = "PLAYER_STATS" →
      h.related_player_stat_id = some sid →
      h.previous_values = SnapshotVal.statSnap sm →
      db.findStat sid = some st →
      db.findMatch h.match_id = some m →
      ∃ db', MatchStatsService.restore_match_version db hid user = some db' ∧
        (db'.findStat sid).map PlayerMatchStat.snapshot = some sm ∧
        ∃ e, db'.history = db.history ++ [e] ∧
          e.edit_type = "PLAYER_STATS_RESTORE" ∧
          e.previous_values = SnapshotVal.statSnap st.snapshot ∧
          e.new_values = SnapshotVal.statSnap sm) := by
  constructor
  · intro m s het hprev hfm
    have hpk : (m.applySnapshot s).pk = h.match_id := by
      have h1 := findMatch_pk hfm
      exact h1
    have hupd := findMatch_updateMatch hfm hpk
    simp only [MatchStatsService.restore_match_version, hfind, het, hprev, hfm]
    simp only [reduceIte]
    refine ⟨_, rfl, ?_, ⟨_, rfl, rfl, rfl, rfl⟩⟩
    rw [findMatch_set_history, hupd]
    rfl
  · intro st sm sid m het hrel hprev hfs hfm
    have hsid : (st.applySnapshot sm).stats_id = sid := by
      have h1 := findStat_sid hfs
      exact h1
    have hupd := findStat_updateStat hfs hsid
    simp only [MatchStatsService.restore_match_version, hfind, het, hrel,
      hprev, hfs, hfm]
    simp only [reduceIte]
    refine ⟨_, rfl, ?_, ?_⟩
    · rw [calculate_score_details_findStat, findStat_set_history, hupd]
      rfl
    · refine ⟨{ history_id := db.nextHistoryId
                match_id := h.match_id
                edited_by := user
                previous_values := SnapshotVal.statSnap st.snapshot
                new_values := SnapshotVal.statSnap sm
                edit_type := "PLAYER_STATS_RESTORE"
                edit_reason := "Restored player stats to version"
                related_player_stat_id := some sid }, ?_, rfl, rfl, rfl⟩
      rw [calculate_score_details_history]
      rfl

/-- C10 (witness): restoring the concrete metadata entry resets match 7 to
the captured snapshot and appends one `MATCH_RESTORE` entry. -/
theorem c10_restore_edit_witness :
    ∃ db', MatchStatsService.restore_match_version dbHistEx 1 "restorer" =
        some db' ∧
      (db'.findMatch historyEntryEx.match_id).map Match.snapshot = some snapEx ∧
      ∃ e, db'.history = dbHistEx.history ++ [e] ∧
        e.edit_type = "MATCH_RESTORE" ∧
        e.previous_values = SnapshotVal.matchSnap matchScore.snapshot ∧
        e.new_values = SnapshotVal.matchSnap snapEx :=
  (c10_restore_edit dbHistEx 1 "restorer" historyEntryEx (by decide)).1
    matchScore snapEx (by decide) (by decide) (by decide)
